import Mathlib

/-!
Verification development for the `comix` comic-book archive tool
(`comix/tools.py`, `comix/container.py`, `comix/metadata.py`).

The Python code is shallowly embedded: paths become a stem/suffix record,
file bytes become `List Nat`, directory trees become lists of entries,
the filesystem of archive files becomes a partial map `String → Option`,
and Python exceptions become an explicit error type threaded through
`Except` / outcome records.  External effects that live outside this
repository (the `zip`/`unzip`/`rar`/`unrar` binaries, PyMuPDF) are
abstracted as outcome parameters supplied to the embedded functions; the
control flow around them is translated line by line from the source.
-/

set_option autoImplicit false
set_option maxRecDepth 8192

namespace Comix

/-- Python exceptions that the embedded code can raise.  Each constructor
records one concrete `raise` site (or external failure) of the source:
`wrongFileType` is `TypeError('Wrong file type: ...')` from `Book.unpack`,
`raiseNotImplemented` is the `TypeError` produced at runtime by the
statement `raise NotImplemented` in `Container.test` (Python rejects
raising the non-exception constant `NotImplemented`),
`valueErrorUnknownExtension` is the `ValueError` from the `Book.format`
setter, and `extractionFailed` / `packingFailed` stand for failures of the
external extraction / packing mechanisms (`FileNotFoundError` for a
missing binary or `CalledProcessError` from `check_call`). -/
inductive PyError where
  | wrongFileType
  | raiseNotImplemented
  | valueErrorUnknownExtension
  | extractionFailed
  | packingFailed
deriving DecidableEq, Repr

/-- Python's `str.lower` (ASCII case folding applied to every character,
which is all the source needs for its extension comparisons). -/
def pyLower (s : String) : String := ⟨s.data.map Char.toLower⟩

/-- A `pathlib.Path` as the source uses it: a stem plus a suffix
(`.suffix` includes the leading dot; empty when there is no extension). -/
structure PyPath where
  stem : String
  suffix : String
deriving DecidableEq, Repr

/-- `os.fspath` / `str(path)`. -/
def PyPath.fspath (p : PyPath) : String := p.stem ++ p.suffix

/-- `Path.with_suffix`: replace the suffix, keep the stem. -/
def PyPath.with_suffix (p : PyPath) (s : String) : PyPath :=
  { stem := p.stem, suffix := s }

/-- An archive file's content: its raw bytes plus the verdict of Python's
`zipfile.is_zipfile` on it (zip central-directory sniffing is done by the
standard library, outside this repository, so it is carried as a field). -/
structure ArchiveFile where
  bytes : List Nat
  zipOk : Bool
deriving DecidableEq, Repr

/-- The fixed RAR magic prefix `b'\x52\x61\x72\x21\x1a\x07'` compared
against in `Cbr.test`. -/
def rarSignature : List Nat := [0x52, 0x61, 0x72, 0x21, 0x1a, 0x07]

/-- `Cbz.test`: `is_zipfile(str(filename))`. -/
def Cbz_test (f : ArchiveFile) : Bool := f.zipOk

/-- `Cbr.test`: open the file and compare `file.read(6)` with the RAR
signature.  `read(6)` returns at most 6 bytes (fewer on a short file),
which `List.take` models exactly. -/
def Cbr_test (f : ArchiveFile) : Bool := f.bytes.take 6 == rarSignature

/-- `Container.test`, the base-class fallback: the statement
`raise NotImplemented` raises a `TypeError` at runtime because
`NotImplemented` is not an exception. -/
def Container_test (_f : ArchiveFile) : Except PyError Bool :=
  .error .raiseNotImplemented

/-- `Pdf.test` does not exist (`# TODO test() method for pdf container`),
so attribute lookup finds the inherited `Container.test`. -/
def Pdf_test (f : ArchiveFile) : Except PyError Bool := Container_test f

/-- One filesystem object found by `working_dir.rglob('*')`: its path
relative to the working directory, whether it is a regular file (rglob
also yields directories), and its `stat().st_mtime`. -/
structure Entry where
  relpath : String
  isFile : Bool
  mtime : Int
deriving DecidableEq, Repr

/-- Insertion step of the sort performed by `sorted(...rglob('*'))`,
ordering entries by path. -/
def insertEntry (e : Entry) : List Entry → List Entry
  | [] => [e]
  | x :: xs => if e.relpath ≤ x.relpath then e :: x :: xs else x :: insertEntry e xs

/-- `sorted(self.working_dir.rglob('*'))`: the directory listing in
lexicographic path order. -/
def sortEntries : List Entry → List Entry
  | [] => []
  | x :: xs => insertEntry x (sortEntries xs)

/-- `Book.snapshot`: for every entry of the sorted recursive listing of
the working directory — regular files and directories alike, there is no
`is_file()` filter — record `{os.fspath(path): path.stat().st_mtime}`.
`os.fspath(path)` is the absolute path, i.e. the working directory
prefixed to the relative path. -/
def snapshot (working_dir : String) (ws : List Entry) : List (String × Int) :=
  (sortEntries ws).map (fun e => (working_dir ++ "/" ++ e.relpath, e.mtime))

/-- The state of a `Book` object (`tools.py`): archive path, the cached
`_input_format` / `_output_format` tags, the baseline snapshot
`_content_old`, the scratch directory name `working_dir`, and the current
content of that directory. -/
structure Book where
  path : PyPath
  input_format : Option String
  output_format : Option String
  content_old : Option (List (String × Int))
  working_dir : String
  wsContent : List Entry
deriving DecidableEq, Repr

/-- The `Book.format` property getter: lower-case the path's suffix, map
the three recognized extensions to their tag (`suffix[1:]`), and return
`None` (modelled as `none`, the unknown-format result) otherwise. -/
def book_format_of (p : PyPath) : Option String :=
  let suffix := pyLower p.suffix
  if suffix = ".cbz" ∨ suffix = ".cbr" ∨ suffix = ".pdf" then
    some (suffix.drop 1)
  else
    none

/-- `Book.__init__`: store the path and derive `_input_format` from it via
the `format` property; `_output_format` starts equal to `_input_format`,
`_content_old` starts as `None`, and no I/O happens. -/
def mkBook (p : PyPath) : Book :=
  { path := p
    input_format := book_format_of p
    output_format := book_format_of p
    content_old := none
    working_dir := ""
    wsContent := [] }

/-- The `Book.format` property getter applied to a book: it re-derives the
tag from `self.path` on every read and never consults `_output_format`. -/
def Book.format_get (b : Book) : Option String := book_format_of b.path

/-- The `Book.format` setter: lower-case the argument; if it is one of the
three recognized tags assign `_output_format`, otherwise raise
`ValueError('Unknown comic file extension')`.  Nothing else is touched. -/
def Book.set_format (b : Book) (format_str : String) : Except PyError Book :=
  let format_str := pyLower format_str
  if format_str = "cbz" ∨ format_str = "cbr" ∨ format_str = "pdf" then
    .ok { b with output_format := some format_str }
  else
    .error .valueErrorUnknownExtension

/-- `Book.is_valid`: dispatch on `_input_format` and run the matching
container family's `test` on the archive at `self.path` (whose content is
the argument `f`).  The `pdf` branch calls the inherited `Container.test`,
whose error propagates; an unrecognized format falls through to
`return False`. -/
def Book.is_valid (b : Book) (f : ArchiveFile) : Except PyError Bool :=
  if b.input_format = some "cbz" then .ok (Cbz_test f)
  else if b.input_format = some "cbr" then .ok (Cbr_test f)
  else if b.input_format = some "pdf" then Pdf_test f
  else .ok false

/-- `Book.is_changed`: changed when the output format differs from the
input format, or when a fresh snapshot of the working directory differs
from `_content_old` (a list compared against `Optional[List]`; against
`None` the comparison is always "different"). -/
def Book.is_changed (b : Book) : Bool :=
  if b.input_format ≠ b.output_format then true
  else if some (snapshot b.working_dir b.wsContent) ≠ b.content_old then true
  else false

/-- Result of `Book.open`: the raised exception if any, whether the
scratch directory was created, whether it was deleted again before `open`
returned (the source has no cleanup on any path of `open`), and the
resulting object state. -/
structure OpenOutcome where
  error : Option PyError
  scratchCreated : Bool
  scratchDeleted : Bool
  book : Book
deriving DecidableEq, Repr

/-- `Book.open` followed by its call into `Book.unpack`.  The
`TemporaryDirectory` is created and `working_dir` assigned before any
validation.  `unpack` then checks `is_valid()` (whose own exception, for
the pdf family, propagates), raises `TypeError('Wrong file type')` when
the test reports false, and otherwise extracts — the result of the
external extraction mechanism is the parameter `unpackResult`, an error
there (missing `unrar`, failed `check_call`) propagating as well.  On
success `_content_old` is set to a fresh snapshot.  No branch of `open`
removes the just-created scratch directory. -/
def Book.open_book (b : Book) (f : ArchiveFile) (wd : String)
    (unpackResult : Except PyError (List Entry)) : OpenOutcome :=
  let b1 : Book := { b with working_dir := wd }
  match b1.is_valid f with
  | .error e => ⟨some e, true, false, b1⟩
  | .ok false => ⟨some .wrongFileType, true, false, b1⟩
  | .ok true =>
    match unpackResult with
    | .error e => ⟨some e, true, false, b1⟩
    | .ok ws =>
      ⟨none, true, false,
        { b1 with wsContent := ws, content_old := some (snapshot wd ws) }⟩

/-- The filesystem of archive files, as a partial map from `os.fspath`
strings to file contents. -/
def FS : Type := String → Option ArchiveFile

/-- `Path.unlink`. -/
def fsUnlink (fs : FS) (p : String) : FS :=
  fun q => if q = p then none else fs q

/-- `Path.rename src dst`: afterwards `dst` holds what `src` held and
`src` holds nothing. -/
def fsRename (fs : FS) (src dst : String) : FS :=
  fun q => if q = dst then fs src else if q = src then none else fs q

/-- Creation of a new archive file by a container family's `pack`. -/
def fsInsert (fs : FS) (p : String) (a : ArchiveFile) : FS :=
  fun q => if q = p then some a else fs q

/-- `Book.backup`: compute `backup_path` by appending `.bak` to the
current suffix, delete a pre-existing file of that name, and rename the
original archive onto it. -/
def Book.backup (b : Book) (fs : FS) : FS :=
  let backup_path := (b.path.with_suffix (b.path.suffix ++ ".bak")).fspath
  let fs1 := if (fs backup_path).isSome then fsUnlink fs backup_path else fs
  fsRename fs1 b.path.fspath backup_path

/-- The common body of the three branches of `Book.pack`: compute the new
name `self.path.with_suffix(ext)`, run `backup`, then invoke the container
family's `pack` (its outcome — the produced archive, or the external
failure — is the parameter `packResult`).  Returns the raised exception if
any, the resulting filesystem, and whether `backup` ran. -/
def packTo (b : Book) (fs : FS) (packResult : Except PyError ArchiveFile)
    (ext : String) : Option PyError × FS × Bool :=
  let new_name := (b.path.with_suffix ext).fspath
  let fs1 := b.backup fs
  match packResult with
  | .error e => (some e, fs1, true)
  | .ok a => (none, fsInsert fs1 new_name a, true)

/-- `Book.pack`: dispatch on `_output_format`; an unrecognized format
raises `TypeError('Wrong file type')` before any backup. -/
def Book.pack (b : Book) (fs : FS) (packResult : Except PyError ArchiveFile) :
    Option PyError × FS × Bool :=
  if b.output_format = some "cbz" then packTo b fs packResult ".cbz"
  else if b.output_format = some "cbr" then packTo b fs packResult ".cbr"
  else if b.output_format = some "pdf" then packTo b fs packResult ".pdf"
  else (some .wrongFileType, fs, false)

/-- Result of `Book.close`: the raised exception if any, the filesystem
afterwards, whether `backup` renamed the original, whether a repack
completed, and whether `self.__temporary_dir.cleanup()` was reached. -/
structure CloseOutcome where
  error : Option PyError
  fs : FS
  didBackup : Bool
  didPack : Bool
  scratchDeleted : Bool

/-- `Book.close`: `if self.is_valid() and self.is_changed(): self.pack()`
followed by `self.__temporary_dir.cleanup()`.  There is no try/finally:
an exception from `is_valid` (pdf family) or from `pack` propagates
before the `cleanup()` line is reached, so on those paths the scratch
directory is not deleted by `close`. -/
def Book.close (b : Book) (fs : FS) (f : ArchiveFile)
    (packResult : Except PyError ArchiveFile) : CloseOutcome :=
  match b.is_valid f with
  | .error e => ⟨some e, fs, false, false, false⟩
  | .ok v =>
    if v && b.is_changed then
      match b.pack fs packResult with
      | (some e, fs1, db) => ⟨some e, fs1, db, false, false⟩
      | (none, fs1, db) => ⟨none, fs1, db, true, true⟩
    else ⟨none, fs, false, false, true⟩

/-! ### Metadata store (`metadata.py`, class `ComicRack`)

The ComicInfo.xml document is a root element with flat child elements,
one per named field; it is embedded as the ordered list of
(tag, text) pairs of the root's children.  `ElementTree.find` returns the
first child with the given tag, which first-match lookup on the list
models. -/

/-- `self.root.find(tag)` followed by reading `.text`: the text of the
first child element with that tag, or `None` when absent — the body of
`ComicRack._get`. -/
def findTag (doc : List (String × String)) (tag : String) : Option String :=
  match doc with
  | [] => none
  | (t, v) :: rest => if t = tag then some v else findTag rest tag

/-- The mutation half of `ComicRack._set`: if `find(tag)` hits an existing
element its text is replaced, otherwise `SubElement` appends a fresh
element which then receives the text. -/
def setTag (doc : List (String × String)) (tag value : String) :
    List (String × String) :=
  match doc with
  | [] => [(tag, value)]
  | (t, v) :: rest =>
    if t = tag then (t, value) :: rest else (t, v) :: setTag rest tag value

/-- The serialization `ElementTree.tostring` of the (prettified) document
that `_set` writes to `ComicInfo.xml`.  `_pretty_xml` only rewrites the
text of elements that have children — for a childless field element
`if element:` is false — so the field texts survive serialization
verbatim and the document is determined by its (tag, text) list. -/
def renderDoc (doc : List (String × String)) : String :=
  doc.foldr (fun tv acc =>
    "<" ++ tv.1 ++ ">" ++ tv.2 ++ "</" ++ tv.1 ++ ">" ++ acc) ""

/-- A `ComicRack` store: the in-memory document (the parsed root's
children) and the current content of the sidecar file `ComicInfo.xml` on
disk (`none` when the file does not exist). -/
structure ComicRack where
  doc : List (String × String)
  sidecar : Option String
deriving DecidableEq, Repr

/-- `ComicRack.__init__` over a directory whose `ComicInfo.xml`, when
present and well-formed, parses to `parsed`: load it, or fall back to the
synthesized empty document (`empty_xml` has no children).  `diskContent`
is what the sidecar file holds on disk (unchanged by construction; a
malformed file is also represented by `parsed = none`, silently
ignored). -/
def mkComicRack (parsed : Option (List (String × String)))
    (diskContent : Option String) : ComicRack :=
  { doc := parsed.getD [], sidecar := diskContent }

/-- `ComicRack._get`. -/
def ComicRack.get (s : ComicRack) (tag : String) : Option String :=
  findTag s.doc tag

/-- `ComicRack._set`: mutate the in-memory document, then immediately
serialize the whole document and rewrite the sidecar file with it
(`open(self.xml_path, "wb")` truncates and writes the full document). -/
def ComicRack.set (s : ComicRack) (tag value : String) : ComicRack :=
  let doc1 := setTag s.doc tag value
  { doc := doc1, sidecar := some (renderDoc doc1) }

/-! ### The Snapshot as the spec describes it

For comparison with `snapshot` (translated from `Book.snapshot`), this is
the collection the spec's words describe: (relative path, mtime) pairs of
exactly the regular files, in the same deterministic order. -/

/-- Modelled from the spec: "an ordered collection, in deterministic
lexicographic traversal order, of (relative path, last-modified timestamp)
pairs covering exactly the regular files under the Workspace". -/
def specSnapshot (ws : List Entry) : List (String × Int) :=
  ((sortEntries ws).filter (fun e => e.isFile)).map
    (fun e => (e.relpath, e.mtime))

/-! ### Helper lemmas -/

theorem pyLower_length (s : String) : (pyLower s).length = s.length := by
  rw [pyLower, String.length_mk, List.length_map, String.length_data]

theorem string_append_ne_of_length_ne (s : String) {a b : String}
    (h : a.length ≠ b.length) : s ++ a ≠ s ++ b := by
  intro hc
  have h2 : s.length + a.length = s.length + b.length := by
    simpa [String.length_append] using congrArg String.length hc
  omega

theorem book_format_of_eq_of_lower (p : PyPath) (s : String)
    (h : pyLower p.suffix = s) :
    book_format_of p =
      (if s = ".cbz" ∨ s = ".cbr" ∨ s = ".pdf" then some (s.drop 1) else none) := by
  simp only [book_format_of]
  rw [h]

theorem book_format_of_cbz (p : PyPath) (h : pyLower p.suffix = ".cbz") :
    book_format_of p = some "cbz" := by
  rw [book_format_of_eq_of_lower p _ h]; decide

theorem book_format_of_cbr (p : PyPath) (h : pyLower p.suffix = ".cbr") :
    book_format_of p = some "cbr" := by
  rw [book_format_of_eq_of_lower p _ h]; decide

theorem book_format_of_pdf (p : PyPath) (h : pyLower p.suffix = ".pdf") :
    book_format_of p = some "pdf" := by
  rw [book_format_of_eq_of_lower p _ h]; decide

theorem is_valid_congr (b b' : Book) (h : b.input_format = b'.input_format)
    (f : ArchiveFile) : b.is_valid f = b'.is_valid f := by
  simp [Book.is_valid, h]

theorem open_book_of_error (b : Book) (f : ArchiveFile) (wd : String)
    (ur : Except PyError (List Entry)) (e : PyError)
    (h : Book.is_valid { b with working_dir := wd } f = .error e) :
    b.open_book f wd ur = ⟨some e, true, false, { b with working_dir := wd }⟩ := by
  simp [Book.open_book, h]

theorem open_book_of_valid_false (b : Book) (f : ArchiveFile) (wd : String)
    (ur : Except PyError (List Entry))
    (h : Book.is_valid { b with working_dir := wd } f = .ok false) :
    b.open_book f wd ur =
      ⟨some .wrongFileType, true, false, { b with working_dir := wd }⟩ := by
  simp [Book.open_book, h]

theorem open_book_of_valid_true (b : Book) (f : ArchiveFile) (wd : String)
    (ws : List Entry)
    (h : Book.is_valid { b with working_dir := wd } f = .ok true) :
    b.open_book f wd (.ok ws) =
      ⟨none, true, false,
        { b with working_dir := wd, wsContent := ws,
                 content_old := some (snapshot wd ws) }⟩ := by
  simp [Book.open_book, h]

theorem close_of_is_valid_error (b : Book) (fs : FS) (f : ArchiveFile)
    (pr : Except PyError ArchiveFile) (e : PyError)
    (h : b.is_valid f = .error e) :
    b.close fs f pr = ⟨some e, fs, false, false, false⟩ := by
  simp [Book.close, h]

theorem close_of_unchanged (b : Book) (fs : FS) (f : ArchiveFile)
    (pr : Except PyError ArchiveFile) (v : Bool)
    (h : b.is_valid f = .ok v) (hc : (v && b.is_changed) = false) :
    b.close fs f pr = ⟨none, fs, false, false, true⟩ := by
  simp [Book.close, h, hc]

theorem close_of_changed_pack_ok (b : Book) (fs fs1 : FS) (f : ArchiveFile)
    (pr : Except PyError ArchiveFile) (db : Bool)
    (hval : b.is_valid f = .ok true) (hch : b.is_changed = true)
    (hp : b.pack fs pr = (none, fs1, db)) :
    b.close fs f pr = ⟨none, fs1, db, true, true⟩ := by
  simp [Book.close, hval, hch, hp]

theorem pack_cbr (b : Book) (fs : FS) (packed : ArchiveFile)
    (h : b.output_format = some "cbr") :
    b.pack fs (.ok packed) =
      (none, fsInsert (b.backup fs) (b.path.with_suffix ".cbr").fspath packed,
        true) := by
  simp [Book.pack, h, packTo]

theorem backup_lookup_bak (b : Book) (fs : FS)
    (hne : b.path.fspath ≠ (b.path.with_suffix (b.path.suffix ++ ".bak")).fspath) :
    b.backup fs ((b.path.with_suffix (b.path.suffix ++ ".bak")).fspath)
      = fs b.path.fspath := by
  unfold Book.backup
  by_cases hb :
      (fs ((b.path.with_suffix (b.path.suffix ++ ".bak")).fspath)).isSome <;>
    simp [fsRename, fsUnlink, hb, hne]

/-! ### Claims -/

/-- C5: format detection from a path is a pure function of the path's
extension, case-insensitively mapping `.cbz` to the `cbz` tag, `.cbr` to
`cbr`, `.pdf` to `pdf`, and every other extension to the unknown-format
result (`None` in the source, `none` here). -/
theorem C5_format_detection_pure :
    (∀ p q : PyPath, p.suffix = q.suffix → book_format_of p = book_format_of q) ∧
    (∀ p : PyPath, pyLower p.suffix = ".cbz" → book_format_of p = some "cbz") ∧
    (∀ p : PyPath, pyLower p.suffix = ".cbr" → book_format_of p = some "cbr") ∧
    (∀ p : PyPath, pyLower p.suffix = ".pdf" → book_format_of p = some "pdf") ∧
    (∀ p : PyPath, pyLower p.suffix ≠ ".cbz" → pyLower p.suffix ≠ ".cbr" →
      pyLower p.suffix ≠ ".pdf" → book_format_of p = none) := by
  refine ⟨?_, book_format_of_cbz, book_format_of_cbr, book_format_of_pdf, ?_⟩
  · intro p q h
    simp only [book_format_of, h]
  · intro p h1 h2 h3
    simp only [book_format_of]
    rw [if_neg]
    push_neg
    exact ⟨h1, h2, h3⟩

/-- C5 witness: evaluating format detection at concrete paths, including
an upper-case extension and an unrecognized one. -/
theorem C5_format_detection_pure_witness :
    book_format_of ⟨"a", ".CbZ"⟩ = some "cbz" ∧
    book_format_of ⟨"a", ".pdf"⟩ = some "pdf" ∧
    book_format_of ⟨"a", ".txt"⟩ = none :=
  ⟨C5_format_detection_pure.2.1 ⟨"a", ".CbZ"⟩ (by decide),
   C5_format_detection_pure.2.2.2.1 ⟨"a", ".pdf"⟩ (by decide),
   C5_format_detection_pure.2.2.2.2 ⟨"a", ".txt"⟩ (by decide) (by decide) (by decide)⟩

/-- C10: the `format` property getter always re-derives the tag from the
archive path; assigning a new output format through the setter changes
only the hidden `_output_format` field, so a subsequent read of the
property still returns the path-derived input tag. -/
theorem C10_format_getter_ignores_output_format (b : Book) (s : String)
    (b' : Book) (h : b.set_format s = .ok b') :
    b'.format_get = book_format_of b.path ∧
    b'.format_get = b.format_get ∧
    b'.output_format = some (pyLower s) ∧
    b'.path = b.path ∧
    b'.input_format = b.input_format ∧
    b'.content_old = b.content_old ∧
    b'.working_dir = b.working_dir ∧
    b'.wsContent = b.wsContent := by
  simp only [Book.set_format] at h
  split at h
  · cases h
    exact ⟨rfl, rfl, rfl, rfl, rfl, rfl, rfl, rfl⟩
  · cases h

/-- C10 witness: on a `.cbz` book, assigning output format `cbr` leaves
the readable format property at `cbz`. -/
theorem C10_format_getter_ignores_output_format_witness :
    ((mkBook ⟨"book", ".cbz"⟩).set_format "cbr" =
      .ok { mkBook ⟨"book", ".cbz"⟩ with output_format := some "cbr" }) ∧
    ({ mkBook ⟨"book", ".cbz"⟩ with output_format := some "cbr" } : Book).format_get
      = some "cbz" ∧
    some "cbz" ≠ some "cbr" := by
  refine ⟨by rfl, ?_, by decide⟩
  have h := C10_format_getter_ignores_output_format (mkBook ⟨"book", ".cbz"⟩) "cbr"
    { mkBook ⟨"book", ".cbz"⟩ with output_format := some "cbr" } (by rfl)
  exact h.1.trans (by decide)

/-- C9: the page-document family has no `test` implementation, and the
inherited `Container.test` executes `raise NotImplemented`, which raises a
`TypeError` — so for every file with extension `.pdf` the open-time
container validation raises instead of succeeding, and `open` never
reaches extraction.  (The repository's own test `test_open_pdf` expects
`open` to succeed on a pdf sample.) -/
theorem C9_pdf_validation_raises (p : PyPath) (f : ArchiveFile) (wd : String)
    (ur : Except PyError (List Entry)) (h : pyLower p.suffix = ".pdf") :
    (mkBook p).is_valid f = .error .raiseNotImplemented ∧
    ((mkBook p).open_book f wd ur).error = some .raiseNotImplemented ∧
    ((mkBook p).open_book f wd ur).book.content_old = none := by
  have hin : (mkBook p).input_format = some "pdf" := book_format_of_pdf p h
  have hv : ∀ b : Book, b.input_format = some "pdf" →
      b.is_valid f = .error .raiseNotImplemented := by
    intro b hb
    simp [Book.is_valid, hb, Pdf_test, Container_test]
  have hvb : Book.is_valid { mkBook p with working_dir := wd } f
      = .error .raiseNotImplemented := hv _ hin
  refine ⟨hv _ hin, ?_, ?_⟩ <;>
    rw [open_book_of_error (mkBook p) f wd ur _ hvb]
  rfl

/-- C9 witness: the concrete pdf sample path from the repository's tests.
-/
theorem C9_pdf_validation_raises_witness :
    ((mkBook ⟨"Stupendous.Man.03", ".pdf"⟩).open_book ⟨[], true⟩ "/w"
        (.ok [])).error = some .raiseNotImplemented :=
  (C9_pdf_validation_raises ⟨"Stupendous.Man.03", ".pdf"⟩ ⟨[], true⟩ "/w"
    (.ok []) (by decide)).2.1

/-- C2 counterexample: a `.cbr` file whose bytes fail the signature test.
`open` does raise the wrong-file-type error without extracting, but the
scratch directory was already created by the first line of `open`
(`TemporaryDirectory()`) before validation ran, and no branch of `open`
deletes it again — so a scratch directory does exist after the failed
open, contradicting the claim. -/
theorem C2_counterexample :
    (((mkBook ⟨"book", ".cbr"⟩).open_book ⟨[0, 0, 0, 0, 0, 0], false⟩
        "/scratch" (.ok [])).error = some .wrongFileType) ∧
    (((mkBook ⟨"book", ".cbr"⟩).open_book ⟨[0, 0, 0, 0, 0, 0], false⟩
        "/scratch" (.ok [])).scratchCreated = true) ∧
    (((mkBook ⟨"book", ".cbr"⟩).open_book ⟨[0, 0, 0, 0, 0, 0], false⟩
        "/scratch" (.ok [])).scratchDeleted = false) := by
  refine ⟨?_, ?_, ?_⟩ <;> decide

/-- C2 amended: when the declared format's test reports false, `open`
raises the wrong-file-type error and performs no extraction (workspace
content and baseline snapshot stay untouched), but the scratch directory
has already been created before validation and is not removed by `open`
itself (its deletion is left to the `TemporaryDirectory` finalizer). -/
theorem C2_invalid_open_leaves_scratch (b : Book) (f : ArchiveFile)
    (wd : String) (ur : Except PyError (List Entry))
    (h : b.is_valid f = .ok false) :
    ((b.open_book f wd ur).error = some .wrongFileType) ∧
    ((b.open_book f wd ur).scratchCreated = true) ∧
    ((b.open_book f wd ur).scratchDeleted = false) ∧
    ((b.open_book f wd ur).book.wsContent = b.wsContent) ∧
    ((b.open_book f wd ur).book.content_old = b.content_old) := by
  have hv : Book.is_valid { b with working_dir := wd } f = .ok false :=
    (is_valid_congr _ b rfl f).trans h
  rw [open_book_of_valid_false b f wd ur hv]
  exact ⟨rfl, rfl, rfl, rfl, rfl⟩

/-- C2 amended witness: the concrete failed open of the counterexample's
`.cbr` file, via the amended theorem. -/
theorem C2_invalid_open_leaves_scratch_witness :
    (((mkBook ⟨"other", ".cbr"⟩).open_book ⟨[1, 2, 3], false⟩ "/s"
        (.ok [])).error = some .wrongFileType) ∧
    (((mkBook ⟨"other", ".cbr"⟩).open_book ⟨[1, 2, 3], false⟩ "/s"
        (.ok [])).scratchCreated = true) :=
  ⟨(C2_invalid_open_leaves_scratch (mkBook ⟨"other", ".cbr"⟩) ⟨[1, 2, 3], false⟩
      "/s" (.ok []) (by rfl)).1,
   (C2_invalid_open_leaves_scratch (mkBook ⟨"other", ".cbr"⟩) ⟨[1, 2, 3], false⟩
      "/s" (.ok []) (by rfl)).2.1⟩

/-- C6: `Cbr.test` returns true exactly when the file's first six bytes
are the RAR signature `52 61 72 21 1A 07` (a shorter file cannot match),
and a `.cbr`-suffixed file whose first six bytes differ makes `open`
raise the wrong-file-type error (the source's `InvalidContainer`). -/
theorem C6_cbr_test_signature :
    (∀ f : ArchiveFile, Cbr_test f = true ↔ f.bytes.take 6 = rarSignature) ∧
    (∀ (p : PyPath) (f : ArchiveFile) (wd : String)
        (ur : Except PyError (List Entry)),
      pyLower p.suffix = ".cbr" → f.bytes.take 6 ≠ rarSignature →
      ((mkBook p).open_book f wd ur).error = some .wrongFileType) := by
  constructor
  · intro f
    simp [Cbr_test]
  · intro p f wd ur hsuf hbytes
    have hin : (mkBook p).input_format = some "cbr" := book_format_of_cbr p hsuf
    have hv : Book.is_valid { mkBook p with working_dir := wd } f = .ok false := by
      simp [Book.is_valid, hin, Cbr_test, beq_eq_false_iff_ne, hbytes]
    rw [open_book_of_valid_false (mkBook p) f wd ur hv]

/-- C6 witness: the signature test on a file starting with the RAR magic,
and a failed open of a zip-looking file misnamed `.cbr`. -/
theorem C6_cbr_test_signature_witness :
    Cbr_test ⟨[0x52, 0x61, 0x72, 0x21, 0x1a, 0x07, 0x99], false⟩ = true ∧
    ((mkBook ⟨"book", ".cbr"⟩).open_book ⟨[0x50, 0x4b, 0x03, 0x04], true⟩ "/w"
        (.ok [])).error = some .wrongFileType :=
  ⟨(C6_cbr_test_signature.1 ⟨[0x52, 0x61, 0x72, 0x21, 0x1a, 0x07, 0x99], false⟩).mpr
      (by decide),
   C6_cbr_test_signature.2 ⟨"book", ".cbr"⟩ ⟨[0x50, 0x4b, 0x03, 0x04], true⟩ "/w"
      (.ok []) (by decide) (by decide)⟩

/-- C1 counterexample: a reachable Open-state Book (opened on a valid zip
archive, output format then set to `cbr`) on which `close` hits a failing
`pack` (e.g. the `rar` binary is missing): the exception propagates
before the `cleanup()` line, so this execution of `close` does leave the
Workspace behind, contradicting "there is no execution of close() that
leaves the Workspace behind". -/
theorem C1_counterexample :
    ((((mkBook ⟨"book", ".cbz"⟩).open_book ⟨[], true⟩ "/w" (.ok [])).book.set_format
        "cbr")
      = .ok { path := ⟨"book", ".cbz"⟩, input_format := some "cbz",
              output_format := some "cbr", content_old := some [],
              working_dir := "/w", wsContent := [] }) ∧
    ((Book.close
        { path := ⟨"book", ".cbz"⟩, input_format := some "cbz",
          output_format := some "cbr", content_old := some [],
          working_dir := "/w", wsContent := [] }
        (fun _ => none) ⟨[], true⟩ (.error .packingFailed)).error
      = some .packingFailed) ∧
    ((Book.close
        { path := ⟨"book", ".cbz"⟩, input_format := some "cbz",
          output_format := some "cbr", content_old := some [],
          working_dir := "/w", wsContent := [] }
        (fun _ => none) ⟨[], true⟩ (.error .packingFailed)).scratchDeleted
      = false) := by
  refine ⟨?_, ?_, ?_⟩ <;> rfl

/-- C1 amended: `close` deletes the Workspace exactly on the executions
that raise no exception; an exception from the validity check or from
`pack` propagates before the `cleanup()` line, leaving the Workspace
undeleted by `close` (its removal falls to the `TemporaryDirectory`
finalizer outside `close`). -/
theorem C1_close_cleanup_iff_no_error (b : Book) (fs : FS) (f : ArchiveFile)
    (pr : Except PyError ArchiveFile) :
    (b.close fs f pr).scratchDeleted = true ↔ (b.close fs f pr).error = none := by
  unfold Book.close
  cases hv : b.is_valid f with
  | error e => simp
  | ok v =>
    dsimp only
    by_cases hc : (v && b.is_changed) = true
    · rw [if_pos hc]
      obtain ⟨e, fs1, db⟩ := b.pack fs pr
      cases e <;> simp
    · rw [if_neg hc]
      simp

/-- C3: opening a Book on a valid archive and closing it without touching
the Workspace or the metadata is a no-op: the change detection reports
unchanged (input and output format agree and the fresh snapshot equals
the baseline captured at open), `close` performs no backup rename and no
repack, the filesystem of archives is returned untouched, and the
Workspace is cleaned up. -/
theorem C3_noop_close (p : PyPath) (f : ArchiveFile) (wd : String)
    (ws : List Entry) (fs : FS) (pr : Except PyError ArchiveFile)
    (hopen : ((mkBook p).open_book f wd (.ok ws)).error = none) :
    ((((mkBook p).open_book f wd (.ok ws)).book.is_changed = false)) ∧
    ((((mkBook p).open_book f wd (.ok ws)).book.close fs f pr).error = none) ∧
    ((((mkBook p).open_book f wd (.ok ws)).book.close fs f pr).didBackup = false) ∧
    ((((mkBook p).open_book f wd (.ok ws)).book.close fs f pr).didPack = false) ∧
    ((((mkBook p).open_book f wd (.ok ws)).book.close fs f pr).fs = fs) ∧
    ((((mkBook p).open_book f wd (.ok ws)).book.close fs f pr).scratchDeleted
      = true) := by
  cases hvv : Book.is_valid { mkBook p with working_dir := wd } f with
  | error e =>
    rw [open_book_of_error (mkBook p) f wd (.ok ws) e hvv] at hopen
    exact absurd hopen (by simp)
  | ok v =>
    cases v with
    | false =>
      rw [open_book_of_valid_false (mkBook p) f wd (.ok ws) hvv] at hopen
      exact absurd hopen (by simp)
    | true =>
      rw [open_book_of_valid_true (mkBook p) f wd ws hvv]
      dsimp only
      have hch : Book.is_changed
          { mkBook p with
              working_dir := wd, wsContent := ws,
              content_old := some (snapshot wd ws) } = false := by
        simp [Book.is_changed, mkBook]
      have hv2 : Book.is_valid
          { mkBook p with
              working_dir := wd, wsContent := ws,
              content_old := some (snapshot wd ws) } f = .ok true :=
        (is_valid_congr _ _ rfl f).trans hvv
      rw [close_of_unchanged _ fs f pr true hv2 (by rw [hch]; rfl)]
      exact ⟨hch, rfl, rfl, rfl, rfl, rfl⟩

/-- C3 witness: a no-op open/close cycle on a concrete valid zip
archive. -/
theorem C3_noop_close_witness :
    (((mkBook ⟨"book", ".cbz"⟩).open_book ⟨[], true⟩ "/w" (.ok [])).error
      = none) ∧
    (((mkBook ⟨"book", ".cbz"⟩).open_book ⟨[], true⟩ "/w" (.ok [])).book.is_changed
      = false) ∧
    ((((mkBook ⟨"book", ".cbz"⟩).open_book ⟨[], true⟩ "/w" (.ok [])).book.close
        (fun _ => none) ⟨[], true⟩ (.ok ⟨[], true⟩)).didBackup = false) ∧
    ((((mkBook ⟨"book", ".cbz"⟩).open_book ⟨[], true⟩ "/w" (.ok [])).book.close
        (fun _ => none) ⟨[], true⟩ (.ok ⟨[], true⟩)).fs = (fun _ => none)) ∧
    ((((mkBook ⟨"book", ".cbz"⟩).open_book ⟨[], true⟩ "/w" (.ok [])).book.close
        (fun _ => none) ⟨[], true⟩ (.ok ⟨[], true⟩)).scratchDeleted = true) := by
  refine ⟨by rfl, ?_, ?_, ?_, ?_⟩
  · exact (C3_noop_close ⟨"book", ".cbz"⟩ ⟨[], true⟩ "/w" [] (fun _ => none)
      (.ok ⟨[], true⟩) (by rfl)).1
  · exact (C3_noop_close ⟨"book", ".cbz"⟩ ⟨[], true⟩ "/w" [] (fun _ => none)
      (.ok ⟨[], true⟩) (by rfl)).2.2.1
  · exact (C3_noop_close ⟨"book", ".cbz"⟩ ⟨[], true⟩ "/w" [] (fun _ => none)
      (.ok ⟨[], true⟩) (by rfl)).2.2.2.2.1
  · exact (C3_noop_close ⟨"book", ".cbz"⟩ ⟨[], true⟩ "/w" [] (fun _ => none)
      (.ok ⟨[], true⟩) (by rfl)).2.2.2.2.2

theorem changed_close_cbz_to_cbr (b : Book) (f packed : ArchiveFile) (fs : FS)
    (hin : b.input_format = some "cbz") (hout : b.output_format = some "cbr")
    (hzip : f.zipOk = true) (hlen : b.path.suffix.length = 4) :
    (b.is_changed = true) ∧
    ((b.close fs f (.ok packed)).error = none) ∧
    ((b.close fs f (.ok packed)).didBackup = true) ∧
    ((b.close fs f (.ok packed)).didPack = true) ∧
    ((b.close fs f (.ok packed)).scratchDeleted = true) ∧
    ((b.close fs f (.ok packed)).fs
        ((b.path.with_suffix (b.path.suffix ++ ".bak")).fspath)
      = fs b.path.fspath) ∧
    ((b.close fs f (.ok packed)).fs ((b.path.with_suffix ".cbr").fspath)
      = some packed) := by
  have hch : b.is_changed = true := by
    simp [Book.is_changed, hin, hout]
  have hval : b.is_valid f = .ok true := by
    simp [Book.is_valid, hin, Cbz_test, hzip]
  have hp := pack_cbr b fs packed hout
  rw [close_of_changed_pack_ok b fs _ f (.ok packed) true hval hch hp]
  have hneqb : (b.path.with_suffix (b.path.suffix ++ ".bak")).fspath
      ≠ (b.path.with_suffix ".cbr").fspath := by
    show b.path.stem ++ (b.path.suffix ++ ".bak") ≠ b.path.stem ++ ".cbr"
    apply string_append_ne_of_length_ne
    simp only [String.length_append, hlen]
    decide
  have horig : b.path.fspath
      ≠ (b.path.with_suffix (b.path.suffix ++ ".bak")).fspath := by
    show b.path.stem ++ b.path.suffix ≠ b.path.stem ++ (b.path.suffix ++ ".bak")
    apply string_append_ne_of_length_ne
    simp only [String.length_append, hlen]
    decide
  refine ⟨hch, rfl, rfl, rfl, rfl, ?_, ?_⟩
  · simp only [fsInsert, if_neg hneqb]
    exact backup_lookup_bak b fs horig
  · simp [fsInsert]

/-- C4: on a Book opened on a valid zip archive, reassigning the output
format to `cbr` with no other edit makes the change detection report
changed, and `close` then backs the original up (the `.bak` name holds
the original archive afterwards, whether or not a stale backup had to be
deleted first) and produces the packed archive at the original path with
the new `.cbr` extension. -/
theorem C4_format_reassignment_repacks (p : PyPath) (f packed : ArchiveFile)
    (wd : String) (ws : List Entry) (fs : FS) (b1 : Book)
    (hsuf : pyLower p.suffix = ".cbz") (hzip : f.zipOk = true)
    (hset : (((mkBook p).open_book f wd (.ok ws)).book).set_format "cbr"
      = .ok b1) :
    (b1.is_changed = true) ∧
    ((b1.close fs f (.ok packed)).error = none) ∧
    ((b1.close fs f (.ok packed)).didBackup = true) ∧
    ((b1.close fs f (.ok packed)).didPack = true) ∧
    ((b1.close fs f (.ok packed)).scratchDeleted = true) ∧
    ((b1.close fs f (.ok packed)).fs
        ((p.with_suffix (p.suffix ++ ".bak")).fspath) = fs p.fspath) ∧
    ((b1.close fs f (.ok packed)).fs ((p.with_suffix ".cbr").fspath)
      = some packed) := by
  have hin : (mkBook p).input_format = some "cbz" := book_format_of_cbz p hsuf
  have hvv : Book.is_valid { mkBook p with working_dir := wd } f = .ok true := by
    simp [Book.is_valid, hin, Cbz_test, hzip]
  rw [open_book_of_valid_true (mkBook p) f wd ws hvv] at hset
  dsimp only at hset
  simp only [Book.set_format] at hset
  rw [show pyLower "cbr" = "cbr" from rfl] at hset
  rw [if_pos (Or.inr (Or.inl rfl))] at hset
  cases hset
  have hlen : p.suffix.length = 4 := by
    have h4 := congrArg String.length hsuf
    rw [pyLower_length] at h4
    rw [h4]
    rfl
  exact changed_close_cbz_to_cbr _ f packed fs hin rfl hzip hlen

theorem findTag_setTag_self (doc : List (String × String)) (tag v : String) :
    findTag (setTag doc tag v) tag = some v := by
  induction doc with
  | nil => simp [setTag, findTag]
  | cons hd tl ih =>
    obtain ⟨t, w⟩ := hd
    by_cases h : t = tag
    · simp [setTag, findTag, h]
    · simp [setTag, findTag, h, ih]

theorem findTag_of_not_mem (doc : List (String × String)) (tag : String)
    (h : tag ∉ doc.map Prod.fst) : findTag doc tag = none := by
  induction doc with
  | nil => rfl
  | cons hd tl ih =>
    obtain ⟨t, w⟩ := hd
    simp only [List.map_cons, List.mem_cons] at h
    push_neg at h
    simp [findTag, Ne.symm h.1, ih h.2]

theorem setTag_keys_of_mem (doc : List (String × String)) (tag v : String)
    (h : tag ∈ doc.map Prod.fst) :
    (setTag doc tag v).map Prod.fst = doc.map Prod.fst := by
  induction doc with
  | nil => simp at h
  | cons hd tl ih =>
    obtain ⟨t, w⟩ := hd
    by_cases ht : t = tag
    · simp [setTag, ht]
    · simp only [List.map_cons, List.mem_cons] at h
      rcases h with h | h
      · exact absurd h.symm ht
      · simp [setTag, ht, ih h]

theorem setTag_of_not_mem (doc : List (String × String)) (tag v : String)
    (h : tag ∉ doc.map Prod.fst) :
    setTag doc tag v = doc ++ [(tag, v)] := by
  induction doc with
  | nil => rfl
  | cons hd tl ih =>
    obtain ⟨t, w⟩ := hd
    simp only [List.map_cons, List.mem_cons] at h
    push_neg at h
    simp [setTag, Ne.symm h.1, ih h.2]

/-- C4 witness: converting a concrete `book.cbz` to `cbr`. -/
theorem C4_format_reassignment_repacks_witness :
    ((((mkBook ⟨"book", ".cbz"⟩).open_book ⟨[], true⟩ "/w" (.ok [])).book.set_format
        "cbr")
      = .ok { path := ⟨"book", ".cbz"⟩, input_format := some "cbz",
              output_format := some "cbr", content_old := some [],
              working_dir := "/w", wsContent := [] }) ∧
    (({ path := ⟨"book", ".cbz"⟩, input_format := some "cbz",
        output_format := some "cbr", content_old := some [],
        working_dir := "/w", wsContent := [] } : Book).is_changed = true) ∧
    ((Book.close
        { path := ⟨"book", ".cbz"⟩, input_format := some "cbz",
          output_format := some "cbr", content_old := some [],
          working_dir := "/w", wsContent := [] }
        (fun _ => none) ⟨[], true⟩ (.ok ⟨[7], true⟩)).fs
        ((PyPath.with_suffix ⟨"book", ".cbz"⟩ (".cbz" ++ ".bak")).fspath)
      = (fun _ => none : FS) (PyPath.fspath ⟨"book", ".cbz"⟩)) ∧
    ((Book.close
        { path := ⟨"book", ".cbz"⟩, input_format := some "cbz",
          output_format := some "cbr", content_old := some [],
          working_dir := "/w", wsContent := [] }
        (fun _ => none) ⟨[], true⟩ (.ok ⟨[7], true⟩)).fs
        ((PyPath.with_suffix ⟨"book", ".cbz"⟩ ".cbr").fspath) = some ⟨[7], true⟩) := by
  refine ⟨by rfl, ?_, ?_, ?_⟩
  · exact (C4_format_reassignment_repacks ⟨"book", ".cbz"⟩ ⟨[], true⟩ ⟨[7], true⟩
      "/w" [] (fun _ => none) _ (by rfl) (by rfl) (by rfl)).1
  · exact (C4_format_reassignment_repacks ⟨"book", ".cbz"⟩ ⟨[], true⟩ ⟨[7], true⟩
      "/w" [] (fun _ => none) _ (by rfl) (by rfl) (by rfl)).2.2.2.2.2.1
  · exact (C4_format_reassignment_repacks ⟨"book", ".cbz"⟩ ⟨[], true⟩ ⟨[7], true⟩
      "/w" [] (fun _ => none) _ (by rfl) (by rfl) (by rfl)).2.2.2.2.2.2

/-- C7: setting a metadata field then reading it back on the same store
returns the value just set; a set on an existing field replaces it
(keeping the key multiset of the document), while a set on a fresh field
appends it; reading a field that was never set and is absent from the
sidecar returns absent; and every set rewrites the full serialized
document to the sidecar file, so no set leaves an unwritten dirty state.
-/
theorem C7_metadata_get_set :
    (∀ (s : ComicRack) (tag v : String), (s.set tag v).get tag = some v) ∧
    (∀ (s : ComicRack) (tag v : String), tag ∈ s.doc.map Prod.fst →
      (s.set tag v).doc.map Prod.fst = s.doc.map Prod.fst) ∧
    (∀ (s : ComicRack) (tag v : String), tag ∉ s.doc.map Prod.fst →
      (s.set tag v).doc = s.doc ++ [(tag, v)]) ∧
    (∀ (parsed : Option (List (String × String))) (disk : Option String)
        (tag : String), tag ∉ (parsed.getD []).map Prod.fst →
      (mkComicRack parsed disk).get tag = none) ∧
    (∀ (s : ComicRack) (tag v : String),
      (s.set tag v).sidecar = some (renderDoc (s.set tag v).doc)) := by
  refine ⟨?_, ?_, ?_, ?_, ?_⟩
  · intro s tag v
    exact findTag_setTag_self s.doc tag v
  · intro s tag v h
    exact setTag_keys_of_mem s.doc tag v h
  · intro s tag v h
    exact setTag_of_not_mem s.doc tag v h
  · intro parsed disk tag h
    exact findTag_of_not_mem _ tag h
  · intro s tag v
    rfl

/-- C7 witness: concrete set/get round trips on a store loaded from a
one-field sidecar. -/
theorem C7_metadata_get_set_witness :
    (("Title" ∈ (mkComicRack (some [("Title", "X")]) (some "d")).doc.map Prod.fst) ∧
      ((mkComicRack (some [("Title", "X")]) (some "d")).set "Title" "Asterix").get
        "Title" = some "Asterix") ∧
    (("Number" ∉ (mkComicRack (some [("Title", "X")]) (some "d")).doc.map Prod.fst) ∧
      ((mkComicRack (some [("Title", "X")]) (some "d")).set "Number" "1").doc
        = [("Title", "X"), ("Number", "1")]) ∧
    ((mkComicRack (some [("Title", "X")]) (some "d")).get "Number" = none) ∧
    (((mkComicRack (some [("Title", "X")]) (some "d")).set "Title" "Asterix").sidecar
      = some (renderDoc
          ((mkComicRack (some [("Title", "X")]) (some "d")).set "Title" "Asterix").doc)) :=
  ⟨⟨by decide,
    C7_metadata_get_set.1 (mkComicRack (some [("Title", "X")]) (some "d"))
      "Title" "Asterix"⟩,
   ⟨by decide,
    C7_metadata_get_set.2.2.1 (mkComicRack (some [("Title", "X")]) (some "d"))
      "Number" "1" (by decide)⟩,
   C7_metadata_get_set.2.2.2.1 (some [("Title", "X")]) (some "d") "Number"
     (by decide),
   C7_metadata_get_set.2.2.2.2 (mkComicRack (some [("Title", "X")]) (some "d"))
     "Title" "Asterix"⟩

theorem length_insertEntry (e : Entry) (l : List Entry) :
    (insertEntry e l).length = l.length + 1 := by
  induction l with
  | nil => rfl
  | cons x xs ih =>
    simp only [insertEntry]
    split
    · simp
    · simp [ih]

theorem length_sortEntries (l : List Entry) :
    (sortEntries l).length = l.length := by
  induction l with
  | nil => rfl
  | cons x xs ih =>
    simp [sortEntries, length_insertEntry, ih]

/-- C8 counterexample: `Book.snapshot` records absolute
(working-directory-prefixed) paths and has no `is_file()` filter, so a
Workspace holding a single subdirectory yields a non-empty snapshot while
the collection the claim describes (relative paths of exactly the regular
files) is empty; even for a plain file the recorded path is absolute, not
relative. -/
theorem C8_counterexample :
    (snapshot "/w" [⟨"sub", false, 3⟩] ≠ specSnapshot [⟨"sub", false, 3⟩]) ∧
    (snapshot "/w" [⟨"sub", false, 3⟩] = [("/w/sub", 3)]) ∧
    (specSnapshot [⟨"sub", false, 3⟩] = []) ∧
    (snapshot "/w" [⟨"a.png", true, 1⟩] ≠ specSnapshot [⟨"a.png", true, 1⟩]) ∧
    (snapshot "/w" [⟨"a.png", true, 1⟩] = [("/w/a.png", 1)]) ∧
    (specSnapshot [⟨"a.png", true, 1⟩] = [("a.png", 1)]) := by
  refine ⟨?_, ?_, ?_, ?_, ?_, ?_⟩ <;> decide

/-- C8 amended: a Snapshot is the ordered (path-sorted) collection of
(absolute path under the Workspace, last-modified timestamp) pairs
covering every entry of the recursive listing — directories included, not
only regular files; snapshots compare as plain lists, so changing only a
file's modification time makes the fresh snapshot differ from the
baseline and `is_changed` reports true. -/
theorem C8_snapshot_amended :
    (∀ (wd : String) (ws : List Entry), (snapshot wd ws).length = ws.length) ∧
    (∀ (wd rel : String) (t t' : Int), t ≠ t' →
      snapshot wd [⟨rel, true, t⟩] ≠ snapshot wd [⟨rel, true, t'⟩]) ∧
    (∀ (b : Book) (rel : String) (t t' : Int), t ≠ t' →
      b.input_format = b.output_format →
      b.content_old = some (snapshot b.working_dir [⟨rel, true, t⟩]) →
      b.wsContent = [⟨rel, true, t'⟩] →
      b.is_changed = true) := by
  refine ⟨?_, ?_, ?_⟩
  · intro wd ws
    simp [snapshot, length_sortEntries]
  · intro wd rel t t' h
    simp [snapshot, sortEntries, insertEntry, h]
  · intro b rel t t' h hio hco hws
    simp [Book.is_changed, hio, hco, hws, snapshot, sortEntries, insertEntry,
      h, Ne.symm h]

/-- C8 amended witness: an mtime-only touch on a one-file workspace flips
`is_changed`. -/
theorem C8_snapshot_amended_witness :
    (snapshot "/w" [⟨"a", true, 1⟩] ≠ snapshot "/w" [⟨"a", true, 2⟩]) ∧
    (Book.is_changed
      { path := ⟨"b", ".cbz"⟩, input_format := some "cbz",
        output_format := some "cbz",
        content_old := some (snapshot "/w" [⟨"a", true, 1⟩]),
        working_dir := "/w", wsContent := [⟨"a", true, 2⟩] } = true) :=
  ⟨C8_snapshot_amended.2.1 "/w" "a" 1 2 (by decide),
   C8_snapshot_amended.2.2 _ "a" 1 2 (by decide) rfl rfl rfl⟩

end Comix
